import Mathlib

/-!
Verification of the SiteScraper content-pipeline core: the SEO scorer
(`rewriter/seo.py`), the deduplicator (`pipeline/processor.py`) and the
prompt-template lookup (`rewriter/templates.py`), embedded shallowly.

Python's `int(x / y * z)` evaluates in IEEE-754 binary64 arithmetic, so the
embedding models that arithmetic exactly: rationals are rounded to the
nearest representable binary64 value (round to nearest, ties to even,
53-bit significand) after the division and after the multiplication, and
the final truncation is integer division.  The model is expressed over
numerator/denominator pairs of naturals so that every step is a computable
kernel-friendly operation.
-/

namespace SiteScraper

/-! ## IEEE-754 binary64 evaluation of Python's `int(a / b * c)` -/

/-- Round n / d (with d > 0) to the nearest integer, ties to even. -/
def roundHalfEvenFrac (n d : ℕ) : ℕ :=
  if 2 * (n % d) < d then n / d
  else if d < 2 * (n % d) then n / d + 1
  else if (n / d) % 2 = 0 then n / d else n / d + 1

/-- Decide whether 2 ^ m ≤ num / den for naturals num, den with den > 0. -/
def twoPowLE (m : ℤ) (num den : ℕ) : Bool :=
  match m with
  | Int.ofNat k => decide (2 ^ k * den ≤ num)
  | Int.negSucc k => decide (den ≤ 2 ^ (k + 1) * num)

/-- Fuelled binary search for the binary exponent of num / den inside a bracket. -/
def expSearch (num den : ℕ) : ℕ → ℤ → ℤ → ℤ
  | 0, lo, _ => lo
  | fuel + 1, lo, hi =>
    if hi ≤ lo + 1 then lo
    else
      let mid := (lo + hi) / 2
      if twoPowLE mid num den then expSearch num den fuel mid hi
      else expSearch num den fuel lo mid

/-- Binary exponent of num / den: the greatest e with 2 ^ e ≤ num / den,
searched over exponents in [-200, 200], a range far beyond every value this
program produces. -/
def dblExpFrac (n d : ℕ) : ℤ := expSearch n d 16 (-200) 200

/-- Round the nonnegative fraction n / d (with d > 0) to the nearest IEEE-754
binary64 value (round to nearest, ties to even, 53-bit significand), returned
as an exact fraction (numerator, denominator). -/
def roundFrac (n d : ℕ) : ℕ × ℕ :=
  if n = 0 then (0, 1)
  else if dblExpFrac n d ≤ 52 then
    (roundHalfEvenFrac (n * 2 ^ (52 - dblExpFrac n d).toNat) d,
      2 ^ (52 - dblExpFrac n d).toNat)
  else
    (roundHalfEvenFrac n (d * 2 ^ (dblExpFrac n d - 52).toNat)
      * 2 ^ (dblExpFrac n d - 52).toNat, 1)

/-- Python ``int(a / b * c)`` for naturals a, c and positive b, evaluated the
way CPython does: the true division a / b is correctly rounded to binary64,
the product with c is rounded again, and ``int`` truncates. -/
def pyIntDivMul (a b c : ℕ) : ℕ :=
  (roundFrac ((roundFrac a b).1 * c) (roundFrac a b).2).1
    / (roundFrac ((roundFrac a b).1 * c) (roundFrac a b).2).2

/-! ## Auxiliary string primitives

Python's `str.split()`, `in` (substring), `str.lower()`, `str.startswith`
and `re.findall(r"^## ", body, re.MULTILINE)` are modelled over the
character list of the string (ASCII case folding; Python folds full
Unicode, which the titles and bodies of this pipeline do not use). -/

/-- Whitespace characters recognised by Python's ``str.split()`` (ASCII). -/
def pyIsSpace (c : Char) : Bool :=
  c = ' ' || c = '\t' || c = '\n' || c = '\x0d' || c = '\x0b' || c = '\x0c'

/-- Count of whitespace-delimited words, as ``len(s.split())``. -/
def wordCountAux : List Char → Bool → ℕ → ℕ
  | [], _, n => n
  | c :: cs, inWord, n =>
    if pyIsSpace c then wordCountAux cs false n
    else if inWord then wordCountAux cs true n
    else wordCountAux cs true (n + 1)

/-- Python ``len(s.split())``. -/
def pyWordCount (s : String) : ℕ := wordCountAux s.data false 0

/-- ASCII lower-casing of one character, as Python folds the ASCII range. -/
def pyCharLower (c : Char) : Char :=
  if 'A' ≤ c && c ≤ 'Z' then Char.ofNat (c.toNat + 32) else c

/-- Python ``s.lower()`` (over the ASCII range). -/
def pyLower (s : String) : String := String.mk (s.data.map pyCharLower)

/-- Does the first list occur as a prefix of the second? -/
def charsPrefix : List Char → List Char → Bool
  | [], _ => true
  | _ :: _, [] => false
  | a :: as, b :: bs => a == b && charsPrefix as bs

/-- Does the first list occur as a contiguous sublist of the second? -/
def charsInfix (needle : List Char) : List Char → Bool
  | [] => needle.isEmpty
  | b :: bs => charsPrefix needle (b :: bs) || charsInfix needle bs

/-- Python ``sub in hay`` on strings. -/
def strContains (hay sub : String) : Bool := charsInfix sub.data hay.data

/-- Split a character list at every occurrence of a separator character. -/
def splitOnChar (sep : Char) : List Char → List Char → List (List Char)
  | acc, [] => [acc.reverse]
  | acc, c :: cs =>
    if c = sep then acc.reverse :: splitOnChar sep [] cs
    else splitOnChar sep (c :: acc) cs

/-- Python ``len(re.findall(r"^## ", body, re.MULTILINE))``: the number of
lines (pieces delimited by a newline) that start with ``## ``. -/
def h2Count (body : String) : ℕ :=
  ((splitOnChar '\n' [] body.data).filter
    (fun line => charsPrefix ("## ").data line)).length

/-! ## `rewriter/seo.py` -/

/-- Result of an SEO validation check (`SEOResult` in `rewriter/seo.py`). -/
structure SEOResult where
  passed : Bool
  score : ℕ
  issues : List String
deriving DecidableEq, Repr

/-- Threshold `SEOValidator.TITLE_MIN_LEN`. -/
def TITLE_MIN_LEN : ℕ := 30

/-- Threshold `SEOValidator.TITLE_MAX_LEN`. -/
def TITLE_MAX_LEN : ℕ := 70

/-- Threshold `SEOValidator.META_MIN_LEN`. -/
def META_MIN_LEN : ℕ := 120

/-- Threshold `SEOValidator.META_MAX_LEN`. -/
def META_MAX_LEN : ℕ := 170

/-- Threshold `SEOValidator.MIN_H2_COUNT`. -/
def MIN_H2_COUNT : ℕ := 2

/-- Threshold `SEOValidator.MIN_WORD_COUNT`. -/
def MIN_WORD_COUNT : ℕ := 500

/-- Threshold `SEOValidator.PASS_THRESHOLD`. -/
def PASS_THRESHOLD : ℕ := 70

/-- The literal internal-link marker searched for in the body. -/
def LINK_PLACEHOLDER : String := "\x7b\x7bnovig_internal_link\x7d\x7d"

/-- The `max_points` accumulator of `validate` always reaches 20+20+20+20+10+10. -/
def MAX_POINTS : ℕ := 20 + 20 + 20 + 20 + 10 + 10

/-- Python truthiness of the `keywords: list[str] | None = None` argument:
`None` and the empty list are falsy. -/
def keywordsTruthy : Option (List String) → Bool
  | none => false
  | some l => !l.isEmpty

/-- Points awarded by the title-length criterion. -/
def titlePoints (title : String) : ℕ :=
  if TITLE_MIN_LEN ≤ title.length ∧ title.length ≤ TITLE_MAX_LEN then 20
  else if 0 < title.length then 5 else 0

/-- Issue appended by the title-length criterion, when any. -/
def titleIssue (title : String) : Option String :=
  if TITLE_MIN_LEN ≤ title.length ∧ title.length ≤ TITLE_MAX_LEN then none
  else some ("Title length is " ++ toString title.length ++ " chars (target: "
    ++ toString TITLE_MIN_LEN ++ "-" ++ toString TITLE_MAX_LEN ++ ")")

/-- Points awarded by the meta-description-length criterion. -/
def metaPoints (meta_description : String) : ℕ :=
  if META_MIN_LEN ≤ meta_description.length ∧ meta_description.length ≤ META_MAX_LEN then 20
  else if 0 < meta_description.length then 5 else 0

/-- Issue appended by the meta-description-length criterion, when any. -/
def metaIssue (meta_description : String) : Option String :=
  if META_MIN_LEN ≤ meta_description.length ∧ meta_description.length ≤ META_MAX_LEN then none
  else some ("Meta description length is " ++ toString meta_description.length
    ++ " chars (target: " ++ toString META_MIN_LEN ++ "-" ++ toString META_MAX_LEN ++ ")")

/-- Points awarded by the H2-heading criterion. -/
def h2Points (body : String) : ℕ :=
  if MIN_H2_COUNT ≤ h2Count body then 20
  else min (h2Count body * 10) 15

/-- Issue appended by the H2-heading criterion, when any. -/
def h2Issue (body : String) : Option String :=
  if MIN_H2_COUNT ≤ h2Count body then none
  else some ("Found " ++ toString (h2Count body) ++ " H2 headings (minimum: "
    ++ toString MIN_H2_COUNT ++ ")")

/-- Points awarded by the word-count criterion, as a function of the count. -/
def wordPointsOfCount (w : ℕ) : ℕ :=
  if MIN_WORD_COUNT ≤ w then 20
  else min (pyIntDivMul w MIN_WORD_COUNT 15) 15

/-- Points awarded by the word-count criterion. -/
def wordPoints (body : String) : ℕ := wordPointsOfCount (pyWordCount body)

/-- Issue appended by the word-count criterion, when any. -/
def wordIssue (body : String) : Option String :=
  if MIN_WORD_COUNT ≤ pyWordCount body then none
  else some ("Word count is " ++ toString (pyWordCount body) ++ " (minimum: "
    ++ toString MIN_WORD_COUNT ++ ")")

/-- The keywords found in the body (case-insensitive substring match). -/
def foundCount (body : String) (kws : List String) : ℕ :=
  (kws.filter (fun kw => strContains (pyLower body) (pyLower kw))).length

/-- The keywords missing from the body, in their original order. -/
def missingKeywords (body : String) (kws : List String) : List String :=
  kws.filter (fun kw => !strContains (pyLower body) (pyLower kw))

/-- Points awarded by the keyword-coverage criterion. -/
def keywordPoints (body : String) (keywords : Option (List String)) : ℕ :=
  if keywordsTruthy keywords then
    if foundCount body (keywords.getD []) = (keywords.getD []).length then 10
    else if 0 < foundCount body (keywords.getD []) then
      pyIntDivMul (foundCount body (keywords.getD []))
        (keywords.getD []).length 10
    else 0
  else 10

/-- Issue appended by the keyword-coverage criterion, when any. -/
def keywordIssue (body : String) (keywords : Option (List String)) : Option String :=
  if keywordsTruthy keywords then
    if foundCount body (keywords.getD []) = (keywords.getD []).length then none
    else if 0 < foundCount body (keywords.getD []) then
      some ("Missing keywords: "
        ++ String.intercalate (", ") (missingKeywords body (keywords.getD [])))
    else some ("No target keywords found in body")
  else none

/-- Points awarded by the internal-link-placeholder criterion. -/
def linkPoints (body : String) : ℕ :=
  if strContains body LINK_PLACEHOLDER then 10 else 0

/-- Issue appended by the internal-link-placeholder criterion, when any. -/
def linkIssue (body : String) : Option String :=
  if strContains body LINK_PLACEHOLDER then none
  else some ("Missing \x7b\x7bnovig_internal_link\x7d\x7d placeholder")

/-- The `total_points` accumulator of `validate` after all six criteria. -/
def totalPoints (title meta_description body : String)
    (keywords : Option (List String)) : ℕ :=
  titlePoints title + metaPoints meta_description + h2Points body
    + wordPoints body + keywordPoints body keywords + linkPoints body

/-- The issues list of `validate`, in the fixed check order. -/
def issuesOf (title meta_description body : String)
    (keywords : Option (List String)) : List String :=
  ([titleIssue title, metaIssue meta_description, h2Issue body, wordIssue body,
    keywordIssue body keywords, linkIssue body]).reduceOption

/-- The final score: ``int(total_points / max_points * 100) if max_points > 0 else 0``. -/
def scoreOf (total maxPts : ℕ) : ℕ :=
  if 0 < maxPts then pyIntDivMul total maxPts 100 else 0

/-- `SEOValidator.validate` from `rewriter/seo.py`. -/
def validate (title meta_description body : String)
    (keywords : Option (List String)) : SEOResult :=
  let score := scoreOf (totalPoints title meta_description body keywords) MAX_POINTS
  ⟨decide (PASS_THRESHOLD ≤ score), score,
    issuesOf title meta_description body keywords⟩


/-! ## Exception-sensitive version of `validate`

Python can raise only at the two divisions inside `validate`
(`found / len(keywords)` and `total_points / max_points`); every other
operation (`len`, slicing, `re.findall`, `str.split`, `in`, `lower`,
string formatting) is total.  `validateChecked` makes those two division
sites explicit: a zero divisor produces an error value instead of a result. -/

/-- Python ``int(a / b * c)`` with the ``ZeroDivisionError`` made explicit. -/
def pyIntDivMulChecked (a b c : ℕ) : Except String ℕ :=
  if b = 0 then Except.error ("ZeroDivisionError")
  else Except.ok (pyIntDivMul a b c)

/-- The keyword-coverage criterion with its division site checked. -/
def keywordPointsChecked (body : String) (keywords : Option (List String)) :
    Except String ℕ :=
  if keywordsTruthy keywords then
    if foundCount body (keywords.getD []) = (keywords.getD []).length then Except.ok 10
    else if 0 < foundCount body (keywords.getD []) then
      pyIntDivMulChecked (foundCount body (keywords.getD []))
        (keywords.getD []).length 10
    else Except.ok 0
  else Except.ok 10

/-- The final-score computation with its division site checked. -/
def scoreOfChecked (total maxPts : ℕ) : Except String ℕ :=
  if 0 < maxPts then pyIntDivMulChecked total maxPts 100 else Except.ok 0

/-- `SEOValidator.validate` with every fallible operation made explicit. -/
def validateChecked (title meta_description body : String)
    (keywords : Option (List String)) : Except String SEOResult := do
  let kp ← keywordPointsChecked body keywords
  let total := titlePoints title + metaPoints meta_description + h2Points body
    + wordPoints body + kp + linkPoints body
  let score ← scoreOfChecked total MAX_POINTS
  Except.ok ⟨decide (PASS_THRESHOLD ≤ score), score,
    issuesOf title meta_description body keywords⟩

/-! ## `pipeline/processor.py`

The deduplicator works on content records: mappings with at least a `url`
and a `title` field (read with `.get(..., "")`), every other field opaque
to the logic.  The title-similarity ratio (`difflib.SequenceMatcher(None,
a.lower(), b.lower()).ratio()`, standard-library code outside this
repository) is kept as an arbitrary parameter `ratio`; the embedding only
fixes that it is applied to the two case-folded titles and compared with
the 0.85 threshold, so every theorem below holds for the real ratio. -/

/-- A content record: `url` and `title` as read by the dedup logic, plus the
remaining fields of the mapping, opaque to it. -/
structure ContentRecord where
  url : String
  title : String
  rest : List (String × String)
deriving DecidableEq, Repr

/-- Similarity threshold `DEDUP_THRESHOLD` (0.85). -/
def DEDUP_THRESHOLD : ℚ := mkRat 85 100

/-- `_title_similarity` from `pipeline/processor.py`: the ratio of the two
case-folded titles. -/
def title_similarity (ratio : String → String → ℚ) (a b : String) : ℚ :=
  ratio (pyLower a) (pyLower b)

/-- `_is_duplicate` from `pipeline/processor.py`: is the article a duplicate
of anything in `seen`, by exact non-empty URL match or by title similarity
≥ 0.85 between non-empty titles? -/
def is_duplicate (ratio : String → String → ℚ) (article : ContentRecord)
    (seen : List ContentRecord) : Bool :=
  seen.any (fun prev =>
    (decide (article.url ≠ "") && decide (article.url = prev.url))
    || (decide (article.title ≠ "") && decide (prev.title ≠ "")
        && decide (DEDUP_THRESHOLD ≤ title_similarity ratio article.title prev.title)))

/-- The accumulating loop of `PipelineProcessor.deduplicate`. -/
def dedupGo (ratio : String → String → ℚ) :
    List ContentRecord → List ContentRecord → List ContentRecord
  | unique, [] => unique
  | unique, article :: rest =>
    if is_duplicate ratio article unique then dedupGo ratio unique rest
    else dedupGo ratio (unique ++ [article]) rest

/-- `PipelineProcessor.deduplicate` from `pipeline/processor.py`. -/
def deduplicate (ratio : String → String → ℚ)
    (articles : List ContentRecord) : List ContentRecord :=
  dedupGo ratio [] articles

/-- The spec’s duplicate relation, stated in its own words: a candidate is a
duplicate of a seen record iff the candidate’s url is non-empty and equal to
the seen record’s url, or both titles are non-empty and the case-folded
similarity ratio is at least 0.85. -/
def specDuplicate (ratio : String → String → ℚ) (a b : ContentRecord) : Prop :=
  (a.url ≠ "" ∧ a.url = b.url)
  ∨ (a.title ≠ "" ∧ b.title ≠ ""
      ∧ DEDUP_THRESHOLD ≤ ratio (pyLower a.title) (pyLower b.title))

instance (ratio : String → String → ℚ) (a b : ContentRecord) :
    Decidable (specDuplicate ratio a b) := by
  unfold specDuplicate; infer_instance

/-- The spec’s deduplication loop: accept a record iff it is not a duplicate
of any earlier-accepted record, first-seen-wins. -/
def specDedupGo (ratio : String → String → ℚ) :
    List ContentRecord → List ContentRecord → List ContentRecord
  | seen, [] => seen
  | seen, a :: rest =>
    if ∃ b ∈ seen, specDuplicate ratio a b then specDedupGo ratio seen rest
    else specDedupGo ratio (seen ++ [a]) rest

/-- The spec’s deduplication, stated in its own words. -/
def specDedup (ratio : String → String → ℚ)
    (articles : List ContentRecord) : List ContentRecord :=
  specDedupGo ratio [] articles

/-! ## `rewriter/templates.py` -/

/-- The shared `_BASE_INSTRUCTIONS` preamble of every prompt template. -/
def BASE_INSTRUCTIONS : String :=
  "You are a sports-analytics content writer for Novig, a prediction-market platform.\n\nVoice guidelines:\n- Authoritative but accessible — explain concepts without being condescending\n- Data-driven — cite stats, probabilities, and historical trends\n- Prediction-market focused — frame analysis through the lens of forecasting and prediction markets, not traditional gambling\n- Replace gambling jargon: say \"forecast\" instead of \"bet\", \"edge\" instead of \"value\", \"prediction market\" instead of \"sportsbook\" where natural\n- Naturally incorporate \"Novig\" and \"prediction markets\" where appropriate\n\nOutput format — produce ONLY the following, nothing else:\n1. A compelling headline (H1) — 50-60 characters ideal\n2. A meta description — 150-160 characters, compelling for search results\n3. Article body with H2 and H3 subheadings, at least 500 words\n4. Include the placeholder \x7b\x7bnovig_internal_link\x7d\x7d where an internal link to Novig should appear (use at least once)\n5. End with a call-to-action encouraging readers to explore Novig\x27s prediction markets\n\nReturn the article in this exact structure:\n\nTITLE: <headline>\nMETA_DESCRIPTION: <meta description>\nBODY:\n<markdown body starting with # headline>\n"

/-- The part of `BEST_BETS_TEMPLATE` that follows the shared preamble. -/
def BEST_BETS_SUFFIX : String :=
  "\nContent type: Best Bets Article\n\nYou are rewriting a \"best bets\" article for \x7bsport\x7d on \x7bdate\x7d.\n\nSource data:\n\x7bsource_data\x7d\n\nRequirements:\n- Produce a daily best-bets article covering the top picks\n- For each pick, explain the reasoning with stats and trends\n- Include an overview section, individual pick breakdowns (H2 per pick), and a summary\n- Mention relevant odds/lines and how they relate to prediction-market pricing\n- Use keywords: \x7bkeywords\x7d\n"

/-- Prompt template `BEST_BETS_TEMPLATE`. -/
def BEST_BETS_TEMPLATE : String :=
  BASE_INSTRUCTIONS ++ BEST_BETS_SUFFIX

/-- The part of `PLAYER_PROPS_TEMPLATE` that follows the shared preamble. -/
def PLAYER_PROPS_SUFFIX : String :=
  "\nContent type: Player Props Breakdown\n\nYou are rewriting a player props article for \x7bsport\x7d on \x7bdate\x7d.\n\nSource data:\n\x7bsource_data\x7d\n\nRequirements:\n- Break down the most interesting player prop opportunities\n- For each prop, include the player name, prop type, line, and analysis\n- Reference historical performance data where available\n- Frame props through a prediction-market lens — what does the market imply vs. your analysis?\n- Use keywords: \x7bkeywords\x7d\n"

/-- Prompt template `PLAYER_PROPS_TEMPLATE`. -/
def PLAYER_PROPS_TEMPLATE : String :=
  BASE_INSTRUCTIONS ++ PLAYER_PROPS_SUFFIX

/-- The part of `ODDS_ANALYSIS_TEMPLATE` that follows the shared preamble. -/
def ODDS_ANALYSIS_SUFFIX : String :=
  "\nContent type: Odds Analysis & Line Movement\n\nYou are rewriting an odds analysis article for \x7bsport\x7d on \x7bdate\x7d.\n\nSource data:\n\x7bsource_data\x7d\n\nRequirements:\n- Analyze the current odds landscape and notable line movements\n- Compare odds across sources and highlight discrepancies\n- Explain what the line movements signal about market sentiment\n- Connect to prediction-market concepts — efficiency, crowd wisdom, edge detection\n- Use keywords: \x7bkeywords\x7d\n"

/-- Prompt template `ODDS_ANALYSIS_TEMPLATE`. -/
def ODDS_ANALYSIS_TEMPLATE : String :=
  BASE_INSTRUCTIONS ++ ODDS_ANALYSIS_SUFFIX

/-- The part of `PREDICTIONS_TEMPLATE` that follows the shared preamble. -/
def PREDICTIONS_SUFFIX : String :=
  "\nContent type: Prediction Market Insights\n\nYou are rewriting a predictions/forecast article for \x7bsport\x7d on \x7bdate\x7d.\n\nSource data:\n\x7bsource_data\x7d\n\nRequirements:\n- Present forecasts and predictions for upcoming games/events\n- Use probabilistic language — express confidence as percentages where possible\n- Compare model predictions vs. market prices\n- Discuss where prediction markets may be mispricing outcomes\n- Naturally tie into Novig\x27s prediction market platform\n- Use keywords: \x7bkeywords\x7d\n"

/-- Prompt template `PREDICTIONS_TEMPLATE`. -/
def PREDICTIONS_TEMPLATE : String :=
  BASE_INSTRUCTIONS ++ PREDICTIONS_SUFFIX

/-- The recognised content types, `CONTENT_TYPES`. -/
def CONTENT_TYPES : List String := ["best_bets", "player_props", "odds_analysis", "predictions"]

/-- The `_TEMPLATES` lookup table, content type → prompt template. -/
def TEMPLATES : List (String × String) :=
  [("best_bets", BEST_BETS_TEMPLATE),
   ("player_props", PLAYER_PROPS_TEMPLATE),
   ("odds_analysis", ODDS_ANALYSIS_TEMPLATE),
   ("predictions", PREDICTIONS_TEMPLATE)]

/-- The error message raised for an unrecognised content type. -/
def unknownTypeMsg (content_type : String) : String :=
  "Unknown content type \x27" ++ content_type ++ "\x27. Must be one of: "
    ++ String.intercalate (", ") CONTENT_TYPES

/-- `get_template` from `rewriter/templates.py`: the template for a
recognised content type, a `ValueError` (modelled as `Except.error`)
otherwise. -/
def get_template (content_type : String) : Except String String :=
  match TEMPLATES.lookup content_type with
  | some t => Except.ok t
  | none => Except.error (unknownTypeMsg content_type)

/-! ## Bounds for the float pipeline -/

lemma roundHalfEvenFrac_le (n d z : ℕ) (hd : 0 < d) (h : n ≤ z * d) :
    roundHalfEvenFrac n d ≤ z := by
  have hmod := Nat.div_add_mod n d
  have hq : n / d ≤ z := by
    have h1 := Nat.div_le_div_right (c := d) h
    rwa [Nat.mul_div_cancel z hd] at h1
  have hq' : ¬ 2 * (n % d) < d → n / d < z := by
    intro hbig
    have hr : 0 < n % d := by omega
    rcases Nat.lt_or_ge (n / d) z with h' | h'
    · exact h'
    · exfalso
      have hzd : z * d ≤ (n / d) * d := Nat.mul_le_mul_right d h'
      have : z * d < n := by
        have : d * (n / d) < n := by omega
        calc z * d ≤ (n / d) * d := hzd
          _ = d * (n / d) := Nat.mul_comm _ _
          _ < n := this
      omega
  unfold roundHalfEvenFrac
  split_ifs with h1 h2 h3
  · exact hq
  · exact hq' h1
  · exact hq
  · exact hq' h1

lemma expSearch_eq_or (n d : ℕ) :
    ∀ (fuel : ℕ) (lo hi : ℤ), expSearch n d fuel lo hi = lo
      ∨ twoPowLE (expSearch n d fuel lo hi) n d = true := by
  intro fuel
  induction fuel with
  | zero => intro lo hi; left; rfl
  | succ f ih =>
    intro lo hi
    by_cases h1 : hi ≤ lo + 1
    · left; simp [expSearch, h1]
    · by_cases h2 : twoPowLE ((lo + hi) / 2) n d = true
      · have hrw : expSearch n d (f + 1) lo hi = expSearch n d f ((lo + hi) / 2) hi := by
          simp [expSearch, h1, h2]
        rw [hrw]
        rcases ih ((lo + hi) / 2) hi with h | h
        · right; rw [h]; exact h2
        · right; exact h
      · have hrw : expSearch n d (f + 1) lo hi = expSearch n d f lo ((lo + hi) / 2) := by
          simp [expSearch, h1, h2]
        rw [hrw]
        exact ih lo ((lo + hi) / 2)

lemma dblExpFrac_le_52 (n d k : ℕ) (hd : 0 < d) (hk : k ≤ 2 ^ 52) (h : n ≤ k * d) :
    dblExpFrac n d ≤ 52 := by
  unfold dblExpFrac
  rcases expSearch_eq_or n d 16 (-200) 200 with hlo | htp
  · rw [hlo]
    norm_num
  · rcases hcase : expSearch n d 16 (-200) 200 with j | j
    · rw [hcase] at htp
      have hj : 2 ^ j * d ≤ n := by simpa [twoPowLE] using htp
      have hjn : 2 ^ j * d ≤ 2 ^ 52 * d :=
        le_trans hj (le_trans h (Nat.mul_le_mul_right d hk))
      have hpow : (2 : ℕ) ^ j ≤ 2 ^ 52 := Nat.le_of_mul_le_mul_right hjn hd
      have hj52 : j ≤ 52 := by
        by_contra hgt
        push_neg at hgt
        have : (2 : ℕ) ^ 52 < 2 ^ j := Nat.pow_lt_pow_right (by norm_num) hgt
        omega
      simp only [Int.ofNat_eq_natCast]
      exact_mod_cast hj52
    · have hneg : Int.negSucc j < 0 := Int.negSucc_lt_zero j
      omega

lemma roundFrac_den_pos (n d : ℕ) : 0 < (roundFrac n d).2 := by
  unfold roundFrac
  split_ifs <;> simp only [] <;> first
  | exact Nat.one_pos
  | exact pow_pos (by norm_num) _

lemma roundFrac_le (n d k : ℕ) (hd : 0 < d) (hk : k ≤ 2 ^ 52) (h : n ≤ k * d) :
    (roundFrac n d).1 ≤ k * (roundFrac n d).2 := by
  by_cases h0 : n = 0
  · simp [roundFrac, h0]
  · have he := dblExpFrac_le_52 n d k hd hk h
    unfold roundFrac
    rw [if_neg h0, if_pos he]
    apply roundHalfEvenFrac_le _ _ _ hd
    calc n * 2 ^ (52 - dblExpFrac n d).toNat ≤ (k * d) * 2 ^ (52 - dblExpFrac n d).toNat :=
        Nat.mul_le_mul_right _ h
      _ = k * 2 ^ (52 - dblExpFrac n d).toNat * d := by ring

lemma pyIntDivMul_le (a b c : ℕ) (hb : 0 < b) (hc : c ≤ 2 ^ 52) (h : a ≤ b) :
    pyIntDivMul a b c ≤ c := by
  have h1 : (roundFrac a b).1 ≤ 1 * (roundFrac a b).2 :=
    roundFrac_le a b 1 hb (by norm_num) (by simpa using h)
  have hd1 : 0 < (roundFrac a b).2 := roundFrac_den_pos a b
  have h2 : (roundFrac a b).1 * c ≤ c * (roundFrac a b).2 := by
    rw [one_mul] at h1
    calc (roundFrac a b).1 * c ≤ (roundFrac a b).2 * c := Nat.mul_le_mul_right c h1
      _ = c * (roundFrac a b).2 := Nat.mul_comm _ _
  have h3 := roundFrac_le ((roundFrac a b).1 * c) (roundFrac a b).2 c hd1 hc h2
  have hd2 : 0 < (roundFrac ((roundFrac a b).1 * c) (roundFrac a b).2).2 :=
    roundFrac_den_pos _ _
  unfold pyIntDivMul
  calc (roundFrac ((roundFrac a b).1 * c) (roundFrac a b).2).1
        / (roundFrac ((roundFrac a b).1 * c) (roundFrac a b).2).2
      ≤ c * (roundFrac ((roundFrac a b).1 * c) (roundFrac a b).2).2
        / (roundFrac ((roundFrac a b).1 * c) (roundFrac a b).2).2 :=
        Nat.div_le_div_right h3
    _ = c := Nat.mul_div_cancel c hd2

/-! ## Finite evaluations of the float pipeline -/

set_option maxRecDepth 4000 in
set_option maxHeartbeats 1000000 in
lemma scoreOf_eval : ∀ n, n < 101 → scoreOf n MAX_POINTS =
    if n = 29 ∨ n = 57 ∨ n = 58 then n - 1 else n := by decide

set_option maxRecDepth 8000 in
set_option maxHeartbeats 4000000 in
lemma wordPointsOfCount_eval : ∀ w, w < 500 →
    wordPointsOfCount w = min (w * 15 / 500) 15 := by decide

/-! ## Bounds for the six criteria -/

lemma titlePoints_le (t : String) : titlePoints t ≤ 20 := by
  unfold titlePoints
  split_ifs <;> omega

lemma metaPoints_le (m : String) : metaPoints m ≤ 20 := by
  unfold metaPoints
  split_ifs <;> omega

lemma h2Points_le (b : String) : h2Points b ≤ 20 := by
  unfold h2Points
  split_ifs
  · exact le_refl 20
  · exact le_trans (Nat.min_le_right _ _) (by norm_num)

lemma wordPointsOfCount_le (w : ℕ) : wordPointsOfCount w ≤ 20 := by
  unfold wordPointsOfCount
  split_ifs
  · exact le_refl 20
  · exact le_trans (Nat.min_le_right _ _) (by norm_num)

lemma keywordPoints_le (b : String) (k : Option (List String)) :
    keywordPoints b k ≤ 10 := by
  unfold keywordPoints
  split_ifs with h1 h2 h3
  · exact le_refl 10
  · apply pyIntDivMul_le
    · rcases k with _ | l
      · simp [keywordsTruthy] at h1
      · rcases l with _ | ⟨x, xs⟩
        · simp [keywordsTruthy] at h1
        · simp only [Option.getD_some, List.length_cons]
          exact Nat.succ_pos _
    · norm_num
    · exact List.length_filter_le _ _
  · omega
  · exact le_refl 10

lemma linkPoints_le (b : String) : linkPoints b ≤ 10 := by
  unfold linkPoints
  split_ifs <;> omega

lemma totalPoints_le_100 (t m b : String) (k : Option (List String)) :
    totalPoints t m b k ≤ 100 := by
  unfold totalPoints
  have h1 := titlePoints_le t
  have h2 := metaPoints_le m
  have h3 := h2Points_le b
  have h4 := wordPointsOfCount_le (pyWordCount b)
  have h5 := keywordPoints_le b k
  have h6 := linkPoints_le b
  unfold wordPoints
  omega

lemma scoreOf_le (total : ℕ) (h : total ≤ 100) : scoreOf total MAX_POINTS ≤ 100 := by
  have h100 : MAX_POINTS = 100 := rfl
  rw [scoreOf, h100, if_pos (by norm_num)]
  exact pyIntDivMul_le total 100 100 (by norm_num) (by norm_num) h

/-! ## Claim C1 -/

/-- C1 (counterexample): at this concrete input the six criteria award 29 points
in total (max_points = 100), yet the returned score is 28, not
floor(29 / 100 * 100) = 29: CPython evaluates `29 / 100 * 100` to
`28.999999999999996`. -/
theorem validate_score_ne_totalPoints :
    totalPoints ("x") ("y") ("## a b c d e f g h i")
        (some ["a", "b", "c", "d", "e", "f", "g", "h", "i", "zz"]) = 29
    ∧ (validate ("x") ("y") ("## a b c d e f g h i")
        (some ["a", "b", "c", "d", "e", "f", "g", "h", "i", "zz"])).score = 28 :=
  ⟨by decide, by decide⟩

/-- C1 (amended): for every input the returned score is the IEEE-754 binary64
evaluation of `int(total_points / max_points * 100)` with max_points = 100,
which equals total_points itself except at total_points ∈ {29, 57, 58}, where
float rounding yields total_points - 1. -/
theorem validate_score_eq_totalPoints_up_to_float
    (title meta_description body : String) (keywords : Option (List String)) :
    (validate title meta_description body keywords).score
      = scoreOf (totalPoints title meta_description body keywords) MAX_POINTS
    ∧ totalPoints title meta_description body keywords ≤ 100
    ∧ ∀ n, n < 101 → scoreOf n MAX_POINTS
        = if n = 29 ∨ n = 57 ∨ n = 58 then n - 1 else n :=
  ⟨rfl, totalPoints_le_100 title meta_description body keywords, scoreOf_eval⟩

/-- C1 (witness): the amended theorem applied at a concrete input, evaluating the
float-score table at total_points = 29. -/
theorem validate_score_eq_totalPoints_up_to_float_witness :
    scoreOf 29 MAX_POINTS = 28 := by
  have h := (validate_score_eq_totalPoints_up_to_float ("") ("") ("") none).2.2 29 (by norm_num)
  simpa using h

/-! ## Claim C3 -/

/-- C3: for every input, the score lies in [0, 100] and `passed` holds exactly
when the score reaches the pass threshold 70. -/
theorem validate_score_in_range_and_passed
    (title meta_description body : String) (keywords : Option (List String)) :
    0 ≤ (validate title meta_description body keywords).score
    ∧ (validate title meta_description body keywords).score ≤ 100
    ∧ ((validate title meta_description body keywords).passed = true
        ↔ 70 ≤ (validate title meta_description body keywords).score) := by
  refine ⟨Nat.zero_le _, ?_, ?_⟩
  · exact scoreOf_le _ (totalPoints_le_100 title meta_description body keywords)
  · have hp : (validate title meta_description body keywords).passed
        = decide (70 ≤ (validate title meta_description body keywords).score) := rfl
    rw [hp, decide_eq_true_iff]

/-- C3 (witness): the bounds applied at a concrete input. -/
theorem validate_score_in_range_and_passed_witness :
    (validate ("") ("") ("") none).score ≤ 100 :=
  (validate_score_in_range_and_passed ("") ("") ("") none).2.1

/-! ## Claim C7 -/

/-- C7: with keywords = [] the keyword-coverage criterion awards its full 10
points and contributes no issue, regardless of the body. -/
theorem keyword_criterion_empty_list (body : String) :
    keywordPoints body (some []) = 10 ∧ keywordIssue body (some []) = none :=
  ⟨rfl, rfl⟩

/-! ## Claim C9 -/

/-- C9: below 500 words the word-count sub-score is monotone in the word count;
at or above 500 words it is the full 20 points, which bounds every sub-score. -/
theorem wordPoints_monotone :
    (∀ w1 w2, w1 ≤ w2 → w2 < MIN_WORD_COUNT →
        wordPointsOfCount w1 ≤ wordPointsOfCount w2)
    ∧ (∀ w, MIN_WORD_COUNT ≤ w → wordPointsOfCount w = 20)
    ∧ ∀ w, wordPointsOfCount w ≤ 20 := by
  refine ⟨?_, ?_, wordPointsOfCount_le⟩
  · intro w1 w2 h12 h2
    have h1 : w1 < 500 := lt_of_le_of_lt h12 h2
    rw [wordPointsOfCount_eval w1 h1, wordPointsOfCount_eval w2 h2]
    exact min_le_min (Nat.div_le_div_right (Nat.mul_le_mul_right 15 h12)) le_rfl
  · intro w hw
    unfold wordPointsOfCount
    rw [if_pos hw]

/-- C9 (witness): monotonicity and the full-credit value at concrete counts. -/
theorem wordPoints_monotone_witness :
    wordPointsOfCount 100 ≤ wordPointsOfCount 200 ∧ wordPointsOfCount 500 = 20 :=
  ⟨wordPoints_monotone.1 100 200 (by decide) (by decide),
    wordPoints_monotone.2.1 500 (by decide)⟩

/-! ## Claim C10 -/

/-- C10: passing keywords = None (the omitted-argument default) returns exactly
the same result as passing the empty keyword list. -/
theorem validate_none_eq_validate_nil (title meta_description body : String) :
    validate title meta_description body none
      = validate title meta_description body (some []) := rfl

/-! ## Claim C4 -/

/-- Full-credit condition of the title-length criterion. -/
def titleFullCredit (title : String) : Prop :=
  TITLE_MIN_LEN ≤ title.length ∧ title.length ≤ TITLE_MAX_LEN

/-- Full-credit condition of the meta-description-length criterion. -/
def metaFullCredit (meta_description : String) : Prop :=
  META_MIN_LEN ≤ meta_description.length ∧ meta_description.length ≤ META_MAX_LEN

/-- Full-credit condition of the H2-heading criterion. -/
def h2FullCredit (body : String) : Prop := MIN_H2_COUNT ≤ h2Count body

/-- Full-credit condition of the word-count criterion. -/
def wordFullCredit (body : String) : Prop := MIN_WORD_COUNT ≤ pyWordCount body

/-- Full-credit condition of the keyword-coverage criterion: the keyword list
is empty or omitted, or every keyword occurs in the body. -/
def keywordFullCredit (body : String) (keywords : Option (List String)) : Prop :=
  keywordsTruthy keywords = false
  ∨ foundCount body (keywords.getD []) = (keywords.getD []).length

/-- Full-credit condition of the internal-link-placeholder criterion. -/
def linkFullCredit (body : String) : Prop := strContains body LINK_PLACEHOLDER = true

lemma titleIssue_eq_none_iff (t : String) :
    titleIssue t = none ↔ titleFullCredit t := by
  unfold titleIssue titleFullCredit
  split_ifs with h <;> simp [h]

lemma metaIssue_eq_none_iff (m : String) :
    metaIssue m = none ↔ metaFullCredit m := by
  unfold metaIssue metaFullCredit
  split_ifs with h <;> simp [h]

lemma h2Issue_eq_none_iff (b : String) :
    h2Issue b = none ↔ h2FullCredit b := by
  unfold h2Issue h2FullCredit
  split_ifs with h <;> simp [h]

lemma wordIssue_eq_none_iff (b : String) :
    wordIssue b = none ↔ wordFullCredit b := by
  unfold wordIssue wordFullCredit
  split_ifs with h <;> simp [h]

lemma keywordIssue_eq_none_iff (b : String) (k : Option (List String)) :
    keywordIssue b k = none ↔ keywordFullCredit b k := by
  unfold keywordIssue keywordFullCredit
  split_ifs with h1 h2 h3 <;> simp [*]

lemma linkIssue_eq_none_iff (b : String) :
    linkIssue b = none ↔ linkFullCredit b := by
  unfold linkIssue linkFullCredit
  split_ifs with h <;> simp [h]

lemma reduceOption_six_eq_nil_iff (o1 o2 o3 o4 o5 o6 : Option String) :
    ([o1, o2, o3, o4, o5, o6]).reduceOption = []
      ↔ o1 = none ∧ o2 = none ∧ o3 = none ∧ o4 = none ∧ o5 = none ∧ o6 = none := by
  cases o1 <;> cases o2 <;> cases o3 <;> cases o4 <;> cases o5 <;> cases o6 <;>
    simp [List.reduceOption]

/-- C4: the issues list is exactly the per-criterion diagnostics assembled in the
fixed check order (title, meta, headings, word count, keywords, link placeholder);
each criterion contributes its single diagnostic exactly when it misses its
full-credit condition, and the list is empty iff all six criteria score full
marks. -/
theorem validate_issues_characterized
    (title meta_description body : String) (keywords : Option (List String)) :
    (validate title meta_description body keywords).issues
      = ([titleIssue title, metaIssue meta_description, h2Issue body, wordIssue body,
          keywordIssue body keywords, linkIssue body]).reduceOption
    ∧ (titleIssue title = none ↔ titleFullCredit title)
    ∧ (metaIssue meta_description = none ↔ metaFullCredit meta_description)
    ∧ (h2Issue body = none ↔ h2FullCredit body)
    ∧ (wordIssue body = none ↔ wordFullCredit body)
    ∧ (keywordIssue body keywords = none ↔ keywordFullCredit body keywords)
    ∧ (linkIssue body = none ↔ linkFullCredit body)
    ∧ ((validate title meta_description body keywords).issues = []
        ↔ titleFullCredit title ∧ metaFullCredit meta_description ∧ h2FullCredit body
          ∧ wordFullCredit body ∧ keywordFullCredit body keywords
          ∧ linkFullCredit body) := by
  refine ⟨rfl, titleIssue_eq_none_iff title, metaIssue_eq_none_iff meta_description,
    h2Issue_eq_none_iff body, wordIssue_eq_none_iff body,
    keywordIssue_eq_none_iff body keywords, linkIssue_eq_none_iff body, ?_⟩
  have hv : (validate title meta_description body keywords).issues
      = ([titleIssue title, metaIssue meta_description, h2Issue body, wordIssue body,
          keywordIssue body keywords, linkIssue body]).reduceOption := rfl
  rw [hv, reduceOption_six_eq_nil_iff, titleIssue_eq_none_iff, metaIssue_eq_none_iff,
    h2Issue_eq_none_iff, wordIssue_eq_none_iff, keywordIssue_eq_none_iff,
    linkIssue_eq_none_iff]

/-- C4 (witness): the characterization applied at a concrete input whose issues
list is empty. -/
theorem validate_issues_characterized_witness :
    titleIssue ("") = none ↔ titleFullCredit ("") :=
  (validate_issues_characterized ("") ("") ("") none).2.1

/-! ## Claim C6 -/

lemma keywordPointsChecked_ok (b : String) (k : Option (List String)) :
    keywordPointsChecked b k = Except.ok (keywordPoints b k) := by
  unfold keywordPointsChecked keywordPoints
  split_ifs with h1 h2 h3
  · rfl
  · have hlen : (k.getD []).length ≠ 0 := by
      rcases k with _ | l
      · simp [keywordsTruthy] at h1
      · rcases l with _ | ⟨x, xs⟩
        · simp [keywordsTruthy] at h1
        · simp
    unfold pyIntDivMulChecked
    rw [if_neg hlen]
  · rfl
  · rfl

/-- C6: `validate` is total — for every title, meta description, body and
keywords argument the exception-sensitive model returns `ok` with exactly the
result of `validate`; no division by zero (the only fallible operation) can
occur, so low-quality inputs yield scores and issues rather than errors. -/
theorem validateChecked_eq_ok (title meta_description body : String)
    (keywords : Option (List String)) :
    validateChecked title meta_description body keywords
      = Except.ok (validate title meta_description body keywords) := by
  have hkp := keywordPointsChecked_ok body keywords
  unfold validateChecked
  rw [hkp]
  rfl

/-! ## Claim C2 -/

lemma dedupGo_nil (ratio : String → String → ℚ) (acc : List ContentRecord) :
    dedupGo ratio acc [] = acc := rfl

lemma dedupGo_cons (ratio : String → String → ℚ) (acc : List ContentRecord)
    (a : ContentRecord) (rest : List ContentRecord) :
    dedupGo ratio acc (a :: rest)
      = if is_duplicate ratio a acc = true then dedupGo ratio acc rest
        else dedupGo ratio (acc ++ [a]) rest := rfl

lemma specDedupGo_cons (ratio : String → String → ℚ) (seen : List ContentRecord)
    (a : ContentRecord) (rest : List ContentRecord) :
    specDedupGo ratio seen (a :: rest)
      = if ∃ b ∈ seen, specDuplicate ratio a b then specDedupGo ratio seen rest
        else specDedupGo ratio (seen ++ [a]) rest := rfl

lemma is_duplicate_eq_true_iff (ratio : String → String → ℚ) (a : ContentRecord)
    (seen : List ContentRecord) :
    is_duplicate ratio a seen = true ↔ ∃ b ∈ seen, specDuplicate ratio a b := by
  unfold is_duplicate specDuplicate title_similarity
  simp [List.any_eq_true, Bool.or_eq_true, Bool.and_eq_true, decide_eq_true_iff,
    and_assoc]

lemma dedupGo_eq_specDedupGo (ratio : String → String → ℚ) :
    ∀ (l seen : List ContentRecord), dedupGo ratio seen l = specDedupGo ratio seen l := by
  intro l
  induction l with
  | nil => intro seen; rfl
  | cons a rest ih =>
    intro seen
    rw [dedupGo_cons, specDedupGo_cons]
    by_cases h : is_duplicate ratio a seen = true
    · rw [if_pos h, if_pos ((is_duplicate_eq_true_iff ratio a seen).mp h), ih seen]
    · have hs : ¬ ∃ b ∈ seen, specDuplicate ratio a b :=
        fun hc => h ((is_duplicate_eq_true_iff ratio a seen).mpr hc)
      rw [if_neg h, if_neg hs, ih (seen ++ [a])]

lemma is_duplicate_of_blank (ratio : String → String → ℚ) (a : ContentRecord)
    (seen : List ContentRecord) (hu : a.url = "") (ht : a.title = "") :
    is_duplicate ratio a seen = false := by
  unfold is_duplicate
  simp [hu, ht]

lemma dedupGo_count_blank (ratio : String → String → ℚ) (a : ContentRecord)
    (hu : a.url = "") (ht : a.title = "") :
    ∀ (l acc : List ContentRecord),
      (dedupGo ratio acc l).count a = acc.count a + l.count a := by
  intro l
  induction l with
  | nil => intro acc; simp [dedupGo_nil]
  | cons x rest ih =>
    intro acc
    rw [dedupGo_cons]
    by_cases h : is_duplicate ratio x acc = true
    · have hxa : ¬ x = a := by
        intro hxeq
        rw [hxeq, is_duplicate_of_blank ratio a acc hu ht] at h
        exact Bool.false_ne_true h
      rw [if_pos h, ih acc, List.count_cons]
      simp [hxa]
    · rw [if_neg h, ih (acc ++ [x]), List.count_append, List.count_cons, List.count_cons,
        List.count_nil]
      omega

/-- C2: `deduplicate` accepts a record iff it is not a duplicate of an
earlier-accepted record in exactly the sense of the spec — non-empty equal url, or
both titles non-empty with case-folded similarity at least 0.85 — and every
record with empty url and empty title always passes through.  The statement is
universally quantified over the similarity function, so it holds in particular
for the SequenceMatcher ratio. -/
theorem deduplicate_eq_spec_and_blank_pass (ratio : String → String → ℚ)
    (articles : List ContentRecord) :
    deduplicate ratio articles = specDedup ratio articles
    ∧ ∀ a : ContentRecord, a.url = "" → a.title = "" →
        (deduplicate ratio articles).count a = articles.count a := by
  constructor
  · exact dedupGo_eq_specDedupGo ratio articles []
  · intro a hu ht
    have h := dedupGo_count_blank ratio a hu ht articles []
    simpa [deduplicate] using h

/-- C2 (witness): two records with empty url and empty title both survive
deduplication. -/
theorem deduplicate_eq_spec_and_blank_pass_witness :
    (deduplicate (fun _ _ => 0) [⟨"", "", []⟩, ⟨"", "", []⟩]).count ⟨"", "", []⟩
      = ([⟨"", "", []⟩, ⟨"", "", []⟩] : List ContentRecord).count ⟨"", "", []⟩ :=
  (deduplicate_eq_spec_and_blank_pass (fun _ _ => 0)
    [⟨"", "", []⟩, ⟨"", "", []⟩]).2 ⟨"", "", []⟩ rfl rfl

/-! ## Claim C5 -/

/-- Every element of the second list is not a duplicate of the records that
precede it (the accumulator followed by its predecessors in the list). -/
def CleanFrom (ratio : String → String → ℚ) :
    List ContentRecord → List ContentRecord → Prop
  | _, [] => True
  | acc, a :: rest =>
    is_duplicate ratio a acc = false ∧ CleanFrom ratio (acc ++ [a]) rest

lemma dedupGo_split (ratio : String → String → ℚ) :
    ∀ (l acc : List ContentRecord), ∃ s, dedupGo ratio acc l = acc ++ s
      ∧ List.Sublist s l ∧ CleanFrom ratio acc s := by
  intro l
  induction l with
  | nil =>
    intro acc
    exact ⟨[], by simp [dedupGo_nil], List.nil_sublist [], trivial⟩
  | cons a rest ih =>
    intro acc
    by_cases h : is_duplicate ratio a acc = true
    · obtain ⟨s, hs1, hs2, hs3⟩ := ih acc
      refine ⟨s, ?_, hs2.cons a, hs3⟩
      rw [dedupGo_cons, if_pos h, hs1]
    · obtain ⟨s, hs1, hs2, hs3⟩ := ih (acc ++ [a])
      refine ⟨a :: s, ?_, hs2.cons₂ a, ?_⟩
      · rw [dedupGo_cons, if_neg h, hs1]
        simp
      · exact ⟨Bool.eq_false_iff.mpr (fun hc => h hc), hs3⟩

lemma dedupGo_of_cleanFrom (ratio : String → String → ℚ) :
    ∀ (l acc : List ContentRecord), CleanFrom ratio acc l →
      dedupGo ratio acc l = acc ++ l := by
  intro l
  induction l with
  | nil => intro acc _; simp [dedupGo_nil]
  | cons a rest ih =>
    intro acc hc
    simp only [CleanFrom] at hc
    obtain ⟨h1, h2⟩ := hc
    rw [dedupGo_cons, if_neg (by simp [h1]), ih (acc ++ [a]) h2]
    simp

/-- C5: `deduplicate` is order-preserving — its output is a sublist of its input,
so accepted records appear unmodified in their original relative order — and it
is idempotent.  Universally quantified over the similarity function, so it holds
in particular for the SequenceMatcher ratio. -/
theorem deduplicate_sublist_and_idempotent (ratio : String → String → ℚ)
    (articles : List ContentRecord) :
    List.Sublist (deduplicate ratio articles) articles
    ∧ deduplicate ratio (deduplicate ratio articles) = deduplicate ratio articles := by
  obtain ⟨s, hs1, hs2, hs3⟩ := dedupGo_split ratio articles []
  have hded : deduplicate ratio articles = s := by
    unfold deduplicate
    rw [hs1]
    simp
  constructor
  · rw [hded]
    exact hs2
  · rw [hded]
    unfold deduplicate
    rw [dedupGo_of_cleanFrom ratio s [] hs3]
    simp

/-! ## Claim C8 -/

lemma get_template_of_not_mem (content_type : String)
    (h : content_type ∉ CONTENT_TYPES) :
    get_template content_type = Except.error (unknownTypeMsg content_type) := by
  have h4 : content_type ≠ "best_bets" ∧ content_type ≠ "player_props"
      ∧ content_type ≠ "odds_analysis" ∧ content_type ≠ "predictions" := by
    refine ⟨?_, ?_, ?_, ?_⟩ <;> intro he <;> exact h (by rw [he]; simp [CONTENT_TYPES])
  obtain ⟨h1, h2, h3, h4⟩ := h4
  have b1 : (content_type == "best_bets") = false := beq_eq_false_iff_ne.mpr h1
  have b2 : (content_type == "player_props") = false := beq_eq_false_iff_ne.mpr h2
  have b3 : (content_type == "odds_analysis") = false := beq_eq_false_iff_ne.mpr h3
  have b4 : (content_type == "predictions") = false := beq_eq_false_iff_ne.mpr h4
  unfold get_template TEMPLATES
  simp [List.lookup, b1, b2, b3, b4]

/-- C8: `get_template` raises the "Unknown content type" ValueError (naming the
offending content type) exactly when the content type is not one of the four
recognised ones; each recognised content type yields its own template, and the
four templates are pairwise distinct, so no template is ever silently
substituted for another. -/
theorem get_template_error_iff_unknown :
    (∀ content_type : String, content_type ∉ CONTENT_TYPES →
        get_template content_type = Except.error (unknownTypeMsg content_type))
    ∧ (∀ content_type : String,
        (∃ e, get_template content_type = Except.error e) ↔ content_type ∉ CONTENT_TYPES)
    ∧ get_template ("best_bets") = Except.ok BEST_BETS_TEMPLATE
    ∧ get_template ("player_props") = Except.ok PLAYER_PROPS_TEMPLATE
    ∧ get_template ("odds_analysis") = Except.ok ODDS_ANALYSIS_TEMPLATE
    ∧ get_template ("predictions") = Except.ok PREDICTIONS_TEMPLATE
    ∧ List.Pairwise (fun a b => a ≠ b)
        [BEST_BETS_TEMPLATE, PLAYER_PROPS_TEMPLATE, ODDS_ANALYSIS_TEMPLATE,
          PREDICTIONS_TEMPLATE] := by
  refine ⟨get_template_of_not_mem, ?_, rfl, rfl, rfl, rfl, ?_⟩
  · intro content_type
    constructor
    · rintro ⟨e, he⟩ hmem
      have : ∃ t, get_template content_type = Except.ok t := by
        simp only [CONTENT_TYPES, List.mem_cons, List.mem_singleton] at hmem
        rcases hmem with h | h | h | (h | hfalse)
        · subst h; exact ⟨BEST_BETS_TEMPLATE, rfl⟩
        · subst h; exact ⟨PLAYER_PROPS_TEMPLATE, rfl⟩
        · subst h; exact ⟨ODDS_ANALYSIS_TEMPLATE, rfl⟩
        · subst h; exact ⟨PREDICTIONS_TEMPLATE, rfl⟩
        · exact absurd hfalse (List.not_mem_nil content_type)
      obtain ⟨t, ht⟩ := this
      rw [ht] at he
      exact Except.noConfusion he
    · intro hmem
      exact ⟨unknownTypeMsg content_type, get_template_of_not_mem content_type hmem⟩
  · have hne : ∀ s1 s2 : String, s1 ≠ s2 →
        BASE_INSTRUCTIONS ++ s1 ≠ BASE_INSTRUCTIONS ++ s2 := by
      intro s1 s2 h he
      apply h
      have hd := congrArg String.data he
      rw [String.data_append, String.data_append] at hd
      exact String.ext (List.append_cancel_left hd)
    unfold BEST_BETS_TEMPLATE PLAYER_PROPS_TEMPLATE ODDS_ANALYSIS_TEMPLATE
      PREDICTIONS_TEMPLATE
    refine List.Pairwise.cons ?_ (List.Pairwise.cons ?_ (List.Pairwise.cons ?_
      (List.pairwise_singleton _ _)))
    · intro b hb
      simp only [List.mem_cons, List.mem_singleton] at hb
      rcases hb with h | h | (h | hfalse)
      · rw [h]; exact hne _ _ (by decide)
      · rw [h]; exact hne _ _ (by decide)
      · rw [h]; exact hne _ _ (by decide)
      · exact absurd hfalse (List.not_mem_nil b)
    · intro b hb
      simp only [List.mem_cons, List.mem_singleton] at hb
      rcases hb with h | (h | hfalse)
      · rw [h]; exact hne _ _ (by decide)
      · rw [h]; exact hne _ _ (by decide)
      · exact absurd hfalse (List.not_mem_nil b)
    · intro b hb
      simp only [List.mem_singleton] at hb
      rw [hb]
      exact hne _ _ (by decide)

/-- C8 (witness): the lookup applied at a concrete unrecognised content type. -/
theorem get_template_error_iff_unknown_witness :
    get_template ("player_prop") = Except.error (unknownTypeMsg ("player_prop")) :=
  get_template_error_iff_unknown.1 ("player_prop") (by decide)

end SiteScraper
